import Mathlib

/-!
Verification development for the PayVisualizer grade-band reconciliation
engine (`src/app.py`, class `PayVisualizer`).  The Python program works on
pandas DataFrames; here a DataFrame is a list of column names plus a list of
rows of cells, where a cell is a rational number, a string, a boolean flag
(used only for the derived `IS_OUTLIER` column) or a missing value (`NaN`).
Missing spreadsheet cells are produced by the Excel reader as floating `NaN`
inside numeric columns, which is what `Cell.na` stands for.
-/

set_option autoImplicit false

/-- A single cell of a pandas DataFrame: a number, a string, a boolean, or a
missing value (`NaN`/`None`). -/
inductive Cell where
  | num (q : ℚ)
  | str (s : String)
  | flag (b : Bool)
  | na
deriving DecidableEq, Repr

/-- A DataFrame: named columns and rows of cells.  A row shorter than the
column list reads as missing in the surplus columns. -/
structure Table where
  cols : List String
  rows : List (List Cell)
deriving DecidableEq, Repr

/-- Index of a column by exact name, as in `df['NAME']`. -/
def col_idx (t : Table) (name : String) : Option ℕ :=
  t.cols.findIdx? (fun c => c == name)

/-- The cell values of a named column. -/
def get_col (t : Table) (name : String) : List Cell :=
  match col_idx t name with
  | some i => t.rows.map (fun r => r.getD i Cell.na)
  | none => []

/-- Overwrite a named column with the given values, as in `df['NAME'] = s`. -/
def set_col (t : Table) (name : String) (vals : List Cell) : Table :=
  match col_idx t name with
  | some i => ⟨t.cols, (t.rows.zip vals).map (fun p => p.1.set i p.2)⟩
  | none => t

/-- One row of the default grade table `grade_data` in `PayVisualizer.__init__`
(app.py lines 12-17): a grade with its minimum, midpoint and maximum salary. -/
structure GradeBand where
  grade : ℚ
  minimum : ℚ
  midpoint : ℚ
  maximum : ℚ
deriving DecidableEq, Repr

/-- The default `grade_data` table from `__init__` (app.py lines 12-17),
rows pairing each grade with its minimum/midpoint/maximum. -/
def grade_data : List GradeBand :=
  [⟨12, 45000, 60000, 75000⟩,
   ⟨11, 30000, 40000, 50000⟩,
   ⟨10, 22500, 30000, 37500⟩,
   ⟨9, 18000, 24000, 30000⟩,
   ⟨8, 12000, 16000, 20000⟩,
   ⟨7, 9000, 12000, 15000⟩,
   ⟨6, 7500, 10000, 12500⟩,
   ⟨5, 4875, 6500, 8125⟩,
   ⟨4, 3750, 5000, 6250⟩,
   ⟨3, 2625, 3500, 4375⟩,
   ⟨2, 1650, 2200, 2750⟩,
   ⟨1, 855, 1140, 1425⟩]

/-- The default `market_data` array from `__init__` (app.py lines 21-34),
stored in descending grade order: index 0 is grade 12, index 11 is grade 1. -/
def market_data : List ℚ :=
  [76200, 49800, 38100, 30936, 22678, 16555, 12390, 8443.5, 6350, 4515, 2816, 1482]

/-- The grade sequence `range(12, 0, -1)` used by `update_market_data`
(app.py line 226). -/
def grades_desc : List ℤ := [12, 11, 10, 9, 8, 7, 6, 5, 4, 3, 2, 1]

/-- The ascending grade sequence of the default grade table, as produced by
`generate_visualization` after `sort_values('Grade')` (app.py lines 269-272). -/
def grades_asc : List ℤ := [1, 2, 3, 4, 5, 6, 7, 8, 9, 10, 11, 12]

/-! ### String helpers used by the ingest pipeline -/

/-- Longest digit run at the head of the character list. -/
def leading_digits : List Char → List Char
  | [] => []
  | c :: cs => if c.isDigit then c :: leading_digits cs else []

/-- Drop leading whitespace, modelling the greedy regex fragment matching
zero or more whitespace characters. -/
def drop_ws : List Char → List Char
  | [] => []
  | c :: cs => if c.isWhitespace then drop_ws cs else c :: cs

/-- If `lit` is a prefix of the second list, return the remainder. -/
def strip_lit : List Char → List Char → Option (List Char)
  | [], s => some s
  | _ :: _, [] => none
  | l :: ls, c :: cs => if c = l then strip_lit ls cs else none

/-- Leftmost-match search for the regex literal `lit` followed by optional
whitespace and then one or more digits, returning the captured digit group.
This is the behaviour of `Series.str.extract` for the patterns used in
`load_employee_data` (app.py lines 100-104), which search anywhere in the
string and capture the first digit run after the literal. -/
def search_lit_digits (lit : List Char) : List Char → Option String
  | [] => none
  | c :: cs =>
    match strip_lit lit (c :: cs) with
    | some rest =>
      match drop_ws rest with
      | d :: ds =>
        if d.isDigit then some (String.mk (d :: leading_digits ds))
        else search_lit_digits lit cs
      | [] => search_lit_digits lit cs
    | none => search_lit_digits lit cs

/-- Leftmost digit run anywhere in the list, the bare digits regex. -/
def find_digit_run : List Char → Option String
  | [] => none
  | c :: cs =>
    if c.isDigit then some (String.mk (c :: leading_digits cs)) else find_digit_run cs

/-- Extraction pattern 1 of `load_employee_data`: the word `Grade`, optional
whitespace, then digits (app.py line 101). -/
def pattern_grade (s : String) : Option String :=
  search_lit_digits ['G', 'r', 'a', 'd', 'e'] s.toList

/-- Extraction pattern 2 of `load_employee_data`: the letter `G`, optional
whitespace, then digits (app.py line 102). -/
def pattern_g (s : String) : Option String :=
  search_lit_digits ['G'] s.toList

/-- Extraction pattern 3 of `load_employee_data`: a bare digit run
(app.py line 103). -/
def pattern_digits (s : String) : Option String :=
  find_digit_run s.toList

/-- Text form of a cell, as `Series.astype(str)` renders it.  Integral floats
render in Python as the integer part followed by `.0`; missing values render
as the string `nan`.  Non-integral rationals are rendered here as a fraction,
a divergence from Python float printing that no theorem below relies on. -/
def cell_str : Cell → String
  | Cell.num q =>
    if q.den = 1 then toString q.num ++ ".0" else toString q.num ++ "/" ++ toString q.den
  | Cell.str s => s
  | Cell.flag b => if b then "True" else "False"
  | Cell.na => "nan"

/-- Numeric value of a digit list (most significant digit first). -/
def digits_val (cs : List Char) : ℕ :=
  cs.foldl (fun a c => 10 * a + (c.toNat - 48)) 0

/-- Parse a string of decimal digits as a natural number; `none` when the
string is empty or holds a non-digit. -/
def digit_str_to_nat (s : String) : Option ℕ :=
  let cs := s.toList
  if cs.isEmpty || !(cs.all Char.isDigit) then none else some (digits_val cs)

/-- Apply one extraction pattern to a whole column: extract the digit group
from the text form of each value and coerce it with
`pd.to_numeric(..., errors='coerce')`, so unmatched values become missing
(app.py lines 108-111). -/
def apply_grade_pattern (p : String → Option String) (col : List Cell) : List Cell :=
  col.map (fun c =>
    match p (cell_str c) with
    | some ds =>
      match digit_str_to_nat ds with
      | some n => Cell.num n
      | none => Cell.na
    | none => Cell.na)

/-- The ordered pattern list of `load_employee_data` (app.py lines 100-104). -/
def grade_patterns : List (String → Option String) :=
  [pattern_grade, pattern_g, pattern_digits]

/-- Whether a pattern extracts at least one value of the column, the
`not extracted_grades.isna().all()` test (app.py line 109). -/
def pattern_hits (p : String → Option String) (col : List Cell) : Bool :=
  (apply_grade_pattern p col).any (fun c => !(c == Cell.na))

/-- Try each pattern in order, stopping at the first that extracts at least
one value of the column; `none` when no pattern matches any value
(app.py lines 107-112). -/
def try_patterns : List (String → Option String) → List Cell → Option (List Cell)
  | [], _ => none
  | p :: ps, col =>
    if pattern_hits p col then some (apply_grade_pattern p col) else try_patterns ps col

/-! ### Numeric dtype, truncating cast, and total-column coercion -/

/-- Whether a column has a numeric pandas dtype.  When the Excel reader
builds a column it is numeric exactly when every cell is a number or a
missing `NaN`; any string cell makes the dtype `object`
(the `pd.api.types.is_numeric_dtype` test, app.py line 95). -/
def is_numeric_dtype (col : List Cell) : Bool :=
  col.all (fun c =>
    match c with
    | Cell.num _ => true
    | Cell.na => true
    | _ => false)

/-- Truncation toward zero, the behaviour of `astype(int)` on floats. -/
def rat_trunc (q : ℚ) : ℤ := q.num.tdiv q.den

/-- Apply `astype(int)` to one cell: numbers are truncated toward zero,
anything else is left alone (in the program the cast is only reached on
all-numeric columns). -/
def int_cast_cell (c : Cell) : Cell :=
  match c with
  | Cell.num q => Cell.num ((rat_trunc q : ℤ) : ℚ)
  | c => c

/-- Whether a cell is a string value. -/
def is_str_cell (c : Cell) : Bool :=
  match c with
  | Cell.str _ => true
  | _ => false

/-- Remove every occurrence of the substring `AED`, left to right, as the
regex replacement in `load_employee_data` does (app.py line 137). -/
def remove_aed : List Char → List Char
  | 'A' :: 'E' :: 'D' :: cs => remove_aed cs
  | c :: cs => c :: remove_aed cs
  | [] => []

/-- The TOTAL-column cleanup of app.py line 137: delete commas, then `AED`
markers, then spaces. -/
def clean_total (s : String) : String :=
  String.mk (((s.toList.filter (fun c => !(c == ','))) |> remove_aed).filter (fun c => !(c == ' ')))

/-- Strip leading and trailing whitespace. -/
def strip_ws (cs : List Char) : List Char :=
  drop_ws ((drop_ws cs.reverse).reverse)

/-- Parse an unsigned decimal literal: digits with an optional fractional
part, at least one digit in total.  Exponent notation is not modelled; no
theorem below feeds an exponent to the parser. -/
def parse_unsigned (cs : List Char) : Option ℚ :=
  let intPart := cs.takeWhile Char.isDigit
  let rest := cs.dropWhile Char.isDigit
  match rest with
  | [] => if intPart.isEmpty then none else some ((digits_val intPart : ℕ) : ℚ)
  | '.' :: frac =>
    if (intPart.isEmpty && frac.isEmpty) || !(frac.all Char.isDigit) then none
    else some (((digits_val intPart : ℕ) : ℚ) + ((digits_val frac : ℕ) : ℚ) / ((10 : ℚ) ^ frac.length))
  | _ => none

/-- Parse a decimal string the way `pd.to_numeric` parses scalar strings:
surrounding whitespace is ignored and an optional sign precedes the digits. -/
def parse_decimal (s : String) : Option ℚ :=
  match strip_ws s.toList with
  | '-' :: rest => (parse_unsigned rest).map (fun q => -q)
  | '+' :: rest => parse_unsigned rest
  | rest => parse_unsigned rest

/-- One cell under `pd.to_numeric(..., errors='coerce')`: numbers and missing
values pass through, booleans coerce to 0/1, and strings parse as decimals or
become missing (app.py lines 138 and 141). -/
def to_numeric_cell : Cell → Cell
  | Cell.num q => Cell.num q
  | Cell.na => Cell.na
  | Cell.flag b => Cell.num (if b then 1 else 0)
  | Cell.str s =>
    match parse_decimal s with
    | some q => Cell.num q
    | none => Cell.na

/-- The TOTAL-column coercion of `load_employee_data` (app.py lines 135-141):
only when the first row's TOTAL value is a string is the whole column
rendered to text, cleaned of commas, `AED` markers and spaces, and coerced;
in every case a final `pd.to_numeric(..., errors='coerce')` pass follows. -/
def total_coerce (col : List Cell) : List Cell :=
  let col1 :=
    match col.head? with
    | some (Cell.str _) =>
      (col.map (fun c => Cell.str (clean_total (cell_str c)))).map to_numeric_cell
    | _ => col
  col1.map to_numeric_cell

/-! ### Band lookup and outlier classification -/

/-- Row lookup `grade_df[grade_df['Grade'] == grade]` followed by taking the
first match (app.py line 157): the first band whose grade equals `g`. -/
def lookup_band (bands : List GradeBand) (g : ℚ) : Option GradeBand :=
  bands.find? (fun b => b.grade == g)

/-- The band-membership test `salary < grade_min or salary > grade_max`
(app.py lines 163 and 204).  A missing salary compares false on both sides,
as `NaN` comparisons do. -/
def salary_outside (b : GradeBand) (t : Cell) : Bool :=
  match t with
  | Cell.num q => decide (q < b.minimum) || decide (q > b.maximum)
  | _ => false

/-- Outlier classification as performed at ingest (app.py lines 150-164):
the flag starts false and is set true only when a band for the grade exists
and the salary is outside it; a grade with no band keeps the flag false. -/
def classify_load (bands : List GradeBand) (g : ℚ) (t : Cell) : Bool :=
  match lookup_band bands g with
  | some b => salary_outside b t
  | none => false

/-- Outlier classification as performed after a band-table update
(app.py lines 199-207): the band row for the grade is indexed with
`.values[0]` and no emptiness check, so a grade with no band raises
(`none` here) and otherwise the flag is overwritten with the membership
test. -/
def classify_update (bands : List GradeBand) (g : ℚ) (t : Cell) : Option Bool :=
  (lookup_band bands g).map (fun b => salary_outside b t)

/-- Classification of one DataFrame row at ingest: the GRADE cell is an
integer at this point of the pipeline. -/
def classify_cells (bands : List GradeBand) (g t : Cell) : Bool :=
  match g with
  | Cell.num gq => classify_load bands gq t
  | _ => false

/-- Append the derived `IS_OUTLIER` column (app.py lines 150-164). -/
def add_outlier_col (bands : List GradeBand) (t : Table) : Table :=
  let gs := get_col t "GRADE"
  let ts := get_col t "TOTAL"
  ⟨t.cols ++ ["IS_OUTLIER"],
   (t.rows.zip (gs.zip ts)).map (fun p => p.1 ++ [Cell.flag (classify_cells bands p.2.1 p.2.2)])⟩

/-! ### Required-column resolution -/

/-- The required logical columns of `load_employee_data` (app.py line 67). -/
def required_columns : List String := ["EMP ID", "EMP NAME", "GRADE", "TOTAL"]

/-- ASCII uppercase of a string, the `.upper()` calls of app.py line 77.
The column names of the program are ASCII, where Python and ASCII
uppercasing agree. -/
def upper (s : String) : String :=
  String.mk (s.toList.map Char.toUpper)

/-- Delete the space characters of a string, the `.replace(' ', '')` step of
the column comparison (app.py line 77). -/
def despace (s : String) : String :=
  String.mk (s.toList.filter (fun c => !(c == ' ')))

/-- The column comparison of app.py line 77: uppercase equality, or
uppercase equality after deleting spaces. -/
def col_matches (req actual : String) : Bool :=
  upper actual == upper req || despace (upper actual) == despace (upper req)

/-- First actual column matching a required logical column
(app.py lines 74-80). -/
def find_match (cols : List String) (req : String) : Option String :=
  cols.find? (col_matches req)

/-- The required logical columns with no matching actual column
(app.py lines 70-83). -/
def missing_columns (cols : List String) : List String :=
  required_columns.filter (fun req => (find_match cols req).isNone)

/-- The mapping from required logical names to the matched actual columns
(app.py lines 70-80). -/
def column_mapping (cols : List String) : List (String × String) :=
  required_columns.filterMap (fun req => (find_match cols req).map (fun a => (req, a)))

/-- Rename matched actual columns to their canonical required names with
`df.rename` (app.py lines 89-90); a later mapping entry for the same actual
column wins, as in the Python dict comprehension. -/
def rename_cols (cols : List String) (mapping : List (String × String)) : List String :=
  cols.map (fun c =>
    match mapping.reverse.find? (fun p => p.2 == c) with
    | some p => p.1
    | none => c)

/-! ### Row filtering and the GRADE-processing stage -/

/-- The row-keeping test of app.py line 123:
`GRADE.notna() & (GRADE > 0)`.  A missing grade is dropped; string grades
never reach this test on the paths modelled because the comparison raises
first (see `load_employee_data` below). -/
def grade_keeps (c : Cell) : Bool :=
  match c with
  | Cell.num q => decide (0 < q)
  | _ => false

/-- Keep exactly the rows whose GRADE cell is a positive number
(app.py line 123). -/
def filter_rows (t : Table) : Table :=
  match col_idx t "GRADE" with
  | some i => ⟨t.cols, t.rows.filter (fun r => grade_keeps (r.getD i Cell.na))⟩
  | none => t

/-- Each return site of `load_employee_data` and `update_grade_data` with the
data its message interpolates; `success` is the `True` return. -/
inductive LoadOutcome where
  | readFailure
  | emptyFile
  | missingColumnsFailure (missing : List String)
  | gradeProcessingError
  | unparseableGrades (sample : List Cell)
  | typeMismatchFailure
  | emptyAfterFiltering (original_count : ℕ)
  | unparseableTotals (sample : List Cell)
  | success (count : ℕ)
deriving DecidableEq, Repr

/-- The GRADE-processing block of `load_employee_data`
(app.py lines 93-119).  A numeric column with a missing value raises inside
`astype(int)` (the inner handler returns the grade-processing error);
otherwise a numeric column is cast to integers.  A non-numeric column goes
through the pattern cascade; when no pattern matches any value the column is
left as it was, and the `isna().all()` test of line 115 only fires when the
raw column is entirely missing. -/
def process_grade_col (col : List Cell) : Except LoadOutcome (List Cell) :=
  if is_numeric_dtype col then
    if col.any (fun c => c == Cell.na) then Except.error LoadOutcome.gradeProcessingError
    else Except.ok (col.map int_cast_cell)
  else
    match try_patterns grade_patterns col with
    | some ext => Except.ok ext
    | none =>
      if col.all (fun c => c == Cell.na) then
        Except.error (LoadOutcome.unparseableGrades (col.take 5))
      else Except.ok col

/-- State of the session after `load_employee_data` returns: the value of
`self.employee_df` together with the outcome. -/
structure LoadResult where
  df : Option Table
  outcome : LoadOutcome
deriving DecidableEq, Repr

/-- The full `load_employee_data` pipeline (app.py lines 40-181) as a
function of the current band table, the current `self.employee_df`, and the
parsed upload (`none` when both Excel engines fail to read the file).  The
raw table is assigned to `self.employee_df` as soon as it is read, before
any validation, and each failure return leaves the partially processed
frame in place.  String grades surviving to the filter of line 123 raise a
`TypeError` in the comparison with 0, captured by the outer handler
(`typeMismatchFailure`). -/
def load_employee_data (grade_df : List GradeBand) (employee_df : Option Table)
    (raw : Option Table) : LoadResult :=
  match raw with
  | none => ⟨employee_df, LoadOutcome.readFailure⟩
  | some t0 =>
    if t0.rows.isEmpty then ⟨some t0, LoadOutcome.emptyFile⟩
    else
      let missing := missing_columns t0.cols
      if missing.isEmpty then
        let t1 : Table := ⟨rename_cols t0.cols (column_mapping t0.cols), t0.rows⟩
        match process_grade_col (get_col t1 "GRADE") with
        | Except.error e => ⟨some t1, e⟩
        | Except.ok gcol =>
          let t2 := set_col t1 "GRADE" gcol
          if gcol.any is_str_cell then ⟨some t2, LoadOutcome.typeMismatchFailure⟩
          else
            let original_count := t2.rows.length
            let t3 := filter_rows t2
            if t3.rows.isEmpty then ⟨some t3, LoadOutcome.emptyAfterFiltering original_count⟩
            else
              let t4 := set_col t3 "GRADE" ((get_col t3 "GRADE").map int_cast_cell)
              let tcol := total_coerce (get_col t4 "TOTAL")
              let t5 := set_col t4 "TOTAL" tcol
              if tcol.all (fun c => c == Cell.na) then
                ⟨some t5, LoadOutcome.unparseableTotals (tcol.take 5)⟩
              else
                let t6 := add_outlier_col grade_df t5
                ⟨some t6, LoadOutcome.success t6.rows.length⟩
      else ⟨some t0, LoadOutcome.missingColumnsFailure missing⟩

/-! ### Band-table update and re-classification -/

/-- One employee record as `update_grade_data` reads it back from
`self.employee_df`: the integer grade, the TOTAL cell, and the current
outlier flag. -/
structure EmployeeRow where
  grade : ℚ
  total : Cell
  isOutlier : Bool
deriving DecidableEq, Repr

/-- The band-edit loop of `update_grade_data` (app.py lines 186-190): for
each edit, overwrite the minimum/midpoint/maximum of every band with the
same grade; edits whose grade matches no band change nothing. -/
def apply_band_edits (grade_df : List GradeBand) (edits : List GradeBand) : List GradeBand :=
  edits.foldl
    (fun bands e =>
      bands.map (fun b =>
        if b.grade == e.grade then ⟨b.grade, e.minimum, e.midpoint, e.maximum⟩ else b))
    grade_df

/-- The re-classification loop of `update_grade_data` (app.py lines 195-207),
mutating rows in order.  A record whose grade has no band raises at
`.values[0]`; the rows already visited keep their new flags, the remaining
rows are untouched, and the second component reports whether the loop
completed. -/
def update_reclassify (bands : List GradeBand) : List EmployeeRow → List EmployeeRow × Bool
  | [] => ([], true)
  | r :: rs =>
    match classify_update bands r.grade r.total with
    | none => (r :: rs, false)
    | some f =>
      let p := update_reclassify bands rs
      (⟨r.grade, r.total, f⟩ :: p.1, p.2)

/-- The full `update_grade_data` entry point (app.py lines 183-211): apply
the band edits, then re-classify the loaded records if any; returns the new
band table, the record set, and the success flag. -/
def update_grade_data (grade_df : List GradeBand) (employee_df : Option (List EmployeeRow))
    (new_grade_data : List GradeBand) :
    List GradeBand × Option (List EmployeeRow) × Bool :=
  let bands := apply_band_edits grade_df new_grade_data
  match employee_df with
  | none => (bands, none, true)
  | some rs =>
    let p := update_reclassify bands rs
    (bands, some p.1, p.2)

/-! ### Benchmark alignment and market-data update -/

/-- The loop body of the market-data reordering in `generate_visualization`
(app.py lines 279-287): `original_index = 12 - grade`, emitting the stored
value when the index is in range and 0 otherwise. -/
def align_value (market : List ℚ) (g : ℤ) : ℚ :=
  let original_index : ℤ := 12 - g
  if 0 ≤ original_index ∧ original_index < (market.length : ℤ) then
    market.getD original_index.toNat 0
  else 0

/-- The reordered market sequence that `generate_visualization` builds for
the requested grades (app.py lines 277-287). -/
def sorted_market_data (market : List ℚ) (grades : List ℤ) : List ℚ :=
  grades.map (align_value market)

/-- Modelled from the spec, section 4.4: `alignToGrades(benchmarkSeq,
orderedGrades, maxGrade)` emits `benchmarkSeq[maxGrade - g]` when
`0 ≤ maxGrade - g < len(benchmarkSeq)` and 0 otherwise, with the maximum
grade an explicit parameter.  This is the specification-side definition the
code is compared against. -/
def align_to_grades (benchmarkSeq : List ℚ) (orderedGrades : List ℤ) (maxGrade : ℤ) : List ℚ :=
  orderedGrades.map (fun g =>
    let idx : ℤ := maxGrade - g
    if 0 ≤ idx ∧ idx < (benchmarkSeq.length : ℤ) then benchmarkSeq.getD idx.toNat 0 else 0)

/-- The `update_market_data` rebuild (app.py lines 217-238): iterate the
grades from 12 down to 1; an edited grade takes its edited value, otherwise
the legacy value at index `12 - grade` is reused when in range and 0 is used
otherwise.  The edits are a finite map, the `grade_to_market` dict of
lines 220-222. -/
def update_market_data (grade_to_market : ℤ → Option ℚ) (market : List ℚ) : List ℚ :=
  grades_desc.map (fun grade => (grade_to_market grade).getD (align_value market grade))

/-! ### Concrete fixtures used by the theorems below -/

/-- A previously loaded record set, standing for the session state before a
new upload. -/
def old_table : Table :=
  ⟨["EMP ID", "EMP NAME", "GRADE", "TOTAL", "IS_OUTLIER"],
   [[Cell.str "E1", Cell.str "Alice", Cell.num 5, Cell.num 6000, Cell.flag false]]⟩

/-- An upload whose columns match none of the required logical columns. -/
def bad_columns_table : Table :=
  ⟨["ID", "Name", "Lvl", "Pay"],
   [[Cell.str "E2", Cell.str "Bob", Cell.num 3, Cell.num 1000]]⟩

/-- An upload whose GRADE column is non-numeric text that no extraction
pattern matches. -/
def unparseable_grades_table : Table :=
  ⟨["EMP ID", "EMP NAME", "GRADE", "TOTAL"],
   [[Cell.str "E1", Cell.str "A", Cell.str "abc", Cell.num 1000],
    [Cell.str "E2", Cell.str "B", Cell.str "xyz", Cell.num 2000]]⟩

/-- An upload whose GRADE values are all 0 or blank. -/
def zero_blank_table : Table :=
  ⟨["EMP ID", "EMP NAME", "GRADE", "TOTAL"],
   [[Cell.str "E1", Cell.str "A", Cell.num 0, Cell.num 100],
    [Cell.str "E2", Cell.str "B", Cell.str "", Cell.num 200]]⟩

/-- An upload with a single record whose grade 13 has no band in the default
table. -/
def no_band_grade_table : Table :=
  ⟨["EMP ID", "EMP NAME", "GRADE", "TOTAL"],
   [[Cell.str "E1", Cell.str "A", Cell.num 13, Cell.num 5000]]⟩

/-- The untouched edit set for the benchmark round trip: each grade 1..12 is
assigned exactly the value currently aligned to it. -/
def untouched_edits : ℤ → Option ℚ :=
  fun g => if 1 ≤ g ∧ g ≤ 12 then some (align_value market_data g) else none

/-- The session record set produced by ingesting `no_band_grade_table`:
the grade-13 record is kept with its outlier flag false. -/
def no_band_loaded_table : Table :=
  ⟨["EMP ID", "EMP NAME", "GRADE", "TOTAL", "IS_OUTLIER"],
   [[Cell.str "E1", Cell.str "A", Cell.num 13, Cell.num 5000, Cell.flag false]]⟩

/-- Modelled from the spec, section 4.1: two column names match when they
are equal case-insensitively, or equal case-insensitively after deleting
spaces.  This is the specification-side reading of the column comparison. -/
def col_matches_spec (req actual : String) : Prop :=
  upper actual = upper req ∨ despace (upper actual) = despace (upper req)

/-! ### Helper lemmas -/

/-- A list of rationals of length 12 is reassembled by reading its first
twelve entries. -/
theorem list_getD_twelve (l : List ℚ) (h : l.length = 12) :
    [l.getD 0 0, l.getD 1 0, l.getD 2 0, l.getD 3 0, l.getD 4 0, l.getD 5 0,
     l.getD 6 0, l.getD 7 0, l.getD 8 0, l.getD 9 0, l.getD 10 0, l.getD 11 0] = l := by
  apply List.ext_getElem
  · simpa using h.symm
  · intro i h1 h2
    have h12 : i < 12 := by simpa using h1
    interval_cases i <;>
      simp [List.getD_eq_getElem?_getD, List.getElem?_eq_getElem h2]

/-! ### Claim C1 -/

/-- Claim C1: for every employee record whose grade has a matching band,
classification — both the ingest pass of `load_employee_data` and the
re-classification pass of `update_grade_data` — sets the outlier flag true
exactly when the total is strictly below the band minimum or strictly above
the band maximum, and a total equal to the minimum or the maximum of a
well-formed band is never flagged. -/
theorem c1_closed_interval_classification (bands : List GradeBand) (g tq : ℚ) (b : GradeBand)
    (hb : lookup_band bands g = some b) :
    (classify_load bands g (Cell.num tq) = true ↔ (tq < b.minimum ∨ tq > b.maximum))
    ∧ (classify_update bands g (Cell.num tq) = some true ↔ (tq < b.minimum ∨ tq > b.maximum))
    ∧ (b.minimum ≤ b.maximum → tq = b.minimum ∨ tq = b.maximum →
        classify_load bands g (Cell.num tq) = false ∧
        classify_update bands g (Cell.num tq) = some false) := by
  have h1 : classify_load bands g (Cell.num tq) =
      (decide (tq < b.minimum) || decide (tq > b.maximum)) := by
    simp [classify_load, hb, salary_outside]
  have h2 : classify_update bands g (Cell.num tq) =
      some (decide (tq < b.minimum) || decide (tq > b.maximum)) := by
    simp [classify_update, hb, salary_outside]
  refine ⟨?_, ?_, ?_⟩
  · rw [h1]; simp
  · rw [h2]; simp
  · intro hle hcase
    have hnlt : ¬ tq < b.minimum ∧ ¬ tq > b.maximum := by
      rcases hcase with hc | hc
      · subst hc; exact ⟨lt_irrefl _, not_lt.mpr hle⟩
      · subst hc; exact ⟨not_lt.mpr hle, lt_irrefl _⟩
    rw [h1, h2]
    simp [hnlt.1, hnlt.2]

/-- Witness for C1: the default band of grade 5 is [4875, 8125]; a total of
exactly 8125 is not an outlier under either classification pass. -/
theorem c1_closed_interval_classification_witness :
    (classify_load grade_data 5 (Cell.num 8125) = true ↔
      ((8125 : ℚ) < 4875 ∨ (8125 : ℚ) > 8125))
    ∧ (classify_update grade_data 5 (Cell.num 8125) = some true ↔
      ((8125 : ℚ) < 4875 ∨ (8125 : ℚ) > 8125))
    ∧ ((4875 : ℚ) ≤ 8125 → (8125 : ℚ) = 4875 ∨ (8125 : ℚ) = 8125 →
        classify_load grade_data 5 (Cell.num 8125) = false ∧
        classify_update grade_data 5 (Cell.num 8125) = some false) :=
  c1_closed_interval_classification grade_data 5 8125 ⟨5, 4875, 6500, 8125⟩ (by decide)

/-! ### Claim C2 -/

/-- Claim C2: the market-data reordering of `generate_visualization` is the
specification aligner with `maxGrade = 12` — it emits
`benchmarkSeq[12 - g]` when that index is in range and 0 otherwise, always
producing one value per requested grade; on the default benchmark array the
ascending grades 1, 2, 3 receive 1482, 2816 and 4515. -/
theorem c2_benchmark_alignment (market : List ℚ) (grades : List ℤ) :
    sorted_market_data market grades = align_to_grades market grades 12
    ∧ (sorted_market_data market grades).length = grades.length
    ∧ sorted_market_data market_data [1, 2, 3] = [1482, 2816, 4515] := by
  refine ⟨rfl, ?_, by decide⟩
  simp [sorted_market_data]

/-! ### Claim C3 -/

/-- Claim C3: for a benchmark sequence of length 12 and the edit set that
assigns to each grade 1..12 exactly the value currently aligned to it,
`update_market_data` rebuilds exactly the original descending array, so
aligning the result back to the ascending grades reproduces the original
per-grade benchmark values. -/
theorem c3_apply_edits_roundtrip (market : List ℚ) (edits : ℤ → Option ℚ)
    (hlen : market.length = 12)
    (hedits : ∀ g : ℤ, 1 ≤ g → g ≤ 12 → edits g = some (align_value market g)) :
    update_market_data edits market = market
    ∧ sorted_market_data (update_market_data edits market) grades_asc =
        sorted_market_data market grades_asc := by
  have key : update_market_data edits market = market := by
    show grades_desc.map (fun grade => (edits grade).getD (align_value market grade)) = market
    rw [show grades_desc = [12, 11, 10, 9, 8, 7, 6, 5, 4, 3, 2, 1] from rfl]
    simp only [List.map_cons, List.map_nil]
    rw [hedits 12 (by norm_num) (by norm_num), hedits 11 (by norm_num) (by norm_num),
      hedits 10 (by norm_num) (by norm_num), hedits 9 (by norm_num) (by norm_num),
      hedits 8 (by norm_num) (by norm_num), hedits 7 (by norm_num) (by norm_num),
      hedits 6 (by norm_num) (by norm_num), hedits 5 (by norm_num) (by norm_num),
      hedits 4 (by norm_num) (by norm_num), hedits 3 (by norm_num) (by norm_num),
      hedits 2 (by norm_num) (by norm_num), hedits 1 (by norm_num) (by norm_num)]
    simp only [Option.getD_some]
    have hin : ∀ g : ℤ, 1 ≤ g → g ≤ 12 →
        align_value market g = market.getD (12 - g).toNat 0 := by
      intro g hg1 hg2
      have hc : (0 : ℤ) ≤ 12 - g ∧ 12 - g < (market.length : ℤ) := by
        rw [hlen]; omega
      simp only [align_value]
      rw [if_pos hc]
    rw [hin 12 (by norm_num) (by norm_num), hin 11 (by norm_num) (by norm_num),
      hin 10 (by norm_num) (by norm_num), hin 9 (by norm_num) (by norm_num),
      hin 8 (by norm_num) (by norm_num), hin 7 (by norm_num) (by norm_num),
      hin 6 (by norm_num) (by norm_num), hin 5 (by norm_num) (by norm_num),
      hin 4 (by norm_num) (by norm_num), hin 3 (by norm_num) (by norm_num),
      hin 2 (by norm_num) (by norm_num), hin 1 (by norm_num) (by norm_num)]
    norm_num [Int.toNat_ofNat]
    simp only [← List.getD_eq_getElem?_getD]
    exact list_getD_twelve market hlen
  exact ⟨key, by rw [key]⟩

/-- Witness for C3: the round trip on the default benchmark array with the
untouched edit set. -/
theorem c3_apply_edits_roundtrip_witness :
    update_market_data untouched_edits market_data = market_data
    ∧ sorted_market_data (update_market_data untouched_edits market_data) grades_asc =
        sorted_market_data market_data grades_asc :=
  c3_apply_edits_roundtrip market_data untouched_edits (by decide)
    (fun g h1 h2 => by simp [untouched_edits, h1, h2])

/-! ### Claim C4 -/

/-- Counterexample to C4: with a record set loaded, an upload whose columns
match no required column fails with the missing-columns error, yet the
session's record set has been replaced by the new raw table — the old
record set does not remain in place. -/
theorem c4_counterexample :
    (load_employee_data grade_data (some old_table) (some bad_columns_table)).df ≠ some old_table
    ∧ (load_employee_data grade_data (some old_table) (some bad_columns_table)).df =
        some bad_columns_table
    ∧ (load_employee_data grade_data (some old_table) (some bad_columns_table)).outcome =
        LoadOutcome.missingColumnsFailure ["EMP ID", "EMP NAME", "GRADE", "TOTAL"] := by
  decide

/-- Claim C4 as amended: the old record set survives a failed ingest only
when the file itself cannot be read; once the raw table is read it is
assigned to the session before any validation, so an ingest that fails on
missing columns leaves the session holding the new raw table instead of the
previous record set. -/
theorem c4_failed_ingest_replaces_records (bands : List GradeBand) (old : Option Table)
    (raw : Table) (hne : raw.rows ≠ []) (hmiss : missing_columns raw.cols ≠ []) :
    (load_employee_data bands old none).df = old
    ∧ (load_employee_data bands old none).outcome = LoadOutcome.readFailure
    ∧ (load_employee_data bands old (some raw)).df = some raw
    ∧ (load_employee_data bands old (some raw)).outcome =
        LoadOutcome.missingColumnsFailure (missing_columns raw.cols) := by
  have h1 : raw.rows.isEmpty = false := by simp [List.isEmpty_iff, hne]
  have h2 : (missing_columns raw.cols).isEmpty = false := by
    simp [List.isEmpty_iff, hmiss]
  refine ⟨rfl, rfl, ?_, ?_⟩ <;>
    simp [load_employee_data, h1, h2]

/-- Witness for C4 as amended, at the default bands, a loaded record set and
the four-column upload that matches nothing. -/
theorem c4_failed_ingest_replaces_records_witness :
    (load_employee_data grade_data (some old_table) none).df = some old_table
    ∧ (load_employee_data grade_data (some old_table) none).outcome = LoadOutcome.readFailure
    ∧ (load_employee_data grade_data (some old_table) (some bad_columns_table)).df =
        some bad_columns_table
    ∧ (load_employee_data grade_data (some old_table) (some bad_columns_table)).outcome =
        LoadOutcome.missingColumnsFailure (missing_columns bad_columns_table.cols) :=
  c4_failed_ingest_replaces_records grade_data (some old_table) bad_columns_table
    (by decide) (by decide)

/-! ### Claim C5 -/

/-- Helper: the re-classification loop of `update_grade_data` reports
failure whenever some loaded record's grade has no band. -/
theorem update_reclassify_fails_of_missing (bands : List GradeBand) (rs : List EmployeeRow)
    (r : EmployeeRow) (hr : r ∈ rs)
    (hnone : lookup_band bands r.grade = none) :
    (update_reclassify bands rs).2 = false := by
  induction rs with
  | nil => cases hr
  | cons x xs ih =>
    rcases List.mem_cons.mp hr with rfl | hmem
    · simp [update_reclassify, classify_update, hnone]
    · cases hx : classify_update bands x.grade x.total with
      | none => simp [update_reclassify, hx]
      | some f =>
        simp only [update_reclassify, hx]
        exact ih hmem

/-- Counterexample to C5: a loaded record with grade 13 has no band in the
default table, and a band-table update then fails instead of succeeding
with the record left unflagged. -/
theorem c5_counterexample :
    lookup_band grade_data 13 = none
    ∧ (update_grade_data grade_data (some [⟨13, Cell.num 5000, false⟩]) []).2.2 = false := by
  decide

/-- Claim C5 as amended: at ingest a record whose grade has no band keeps
its outlier flag false and the load succeeds, but the re-classification run
by `update_grade_data` has no emptiness check on the band lookup, so a
loaded record whose grade has no band in the edited table makes the whole
update fail. -/
theorem c5_unmatched_grade_behaviour (bands edits : List GradeBand)
    (rs : List EmployeeRow) (r : EmployeeRow) (g : ℚ) (t : Cell)
    (hg : lookup_band bands g = none)
    (hr : r ∈ rs)
    (hrn : lookup_band (apply_band_edits bands edits) r.grade = none) :
    classify_load bands g t = false
    ∧ classify_update bands g t = none
    ∧ (update_grade_data bands (some rs) edits).2.2 = false
    ∧ (load_employee_data grade_data none (some no_band_grade_table)).outcome =
        LoadOutcome.success 1
    ∧ (load_employee_data grade_data none (some no_band_grade_table)).df =
        some no_band_loaded_table := by
  refine ⟨by simp [classify_load, hg], by simp [classify_update, hg], ?_, by decide, by decide⟩
  simp only [update_grade_data]
  exact update_reclassify_fails_of_missing _ rs r hr hrn

/-- Witness for C5 as amended, at the default table with a single grade-13
record and an empty edit set. -/
theorem c5_unmatched_grade_behaviour_witness :
    classify_load grade_data 13 (Cell.num 5000) = false
    ∧ classify_update grade_data 13 (Cell.num 5000) = none
    ∧ (update_grade_data grade_data (some [⟨13, Cell.num 5000, true⟩]) grade_data).2.2 = false
    ∧ (load_employee_data grade_data none (some no_band_grade_table)).outcome =
        LoadOutcome.success 1
    ∧ (load_employee_data grade_data none (some no_band_grade_table)).df =
        some no_band_loaded_table :=
  c5_unmatched_grade_behaviour grade_data grade_data [⟨13, Cell.num 5000, true⟩]
    ⟨13, Cell.num 5000, true⟩ 13 (Cell.num 5000) (by decide) (by decide) (by decide)

/-! ### Claim C6 -/

/-- Claim C6, behaviour at the failing input: a GRADE column of non-numeric
text that no pattern matches is left unmodified by the extraction stage, so
the `isna().all()` test of app.py line 115 stays false, the string grades
reach the numeric filter of line 123, and the resulting `TypeError` is
caught by the outer handler — ingest fails with the generic load-failure
message, not with the unparseable-grades message and its raw sample. -/
theorem c6_no_pattern_match_generic_failure :
    load_employee_data grade_data none (some unparseable_grades_table) =
      ⟨some unparseable_grades_table, LoadOutcome.typeMismatchFailure⟩
    ∧ try_patterns grade_patterns (get_col unparseable_grades_table "GRADE") = none := by
  decide

/-! ### Claim C7 -/

/-- Claim C7: required-column resolution finds a match exactly when some
actual column equals the required name case-insensitively, or
case-insensitively ignoring spaces; a required column is reported missing
exactly when no actual column matches it; and the upload with columns
ID, Name, Lvl, Pay fails the resolution with a missing list naming GRADE
and TOTAL (here all four required columns, since none of the four headers
matches any alias). -/
theorem c7_column_resolution (cols : List String) (req : String)
    (hreq : req ∈ required_columns) :
    ((find_match cols req).isSome = true ↔ ∃ c ∈ cols, col_matches_spec req c)
    ∧ (req ∈ missing_columns cols ↔ ∀ c ∈ cols, ¬ col_matches_spec req c)
    ∧ missing_columns ["ID", "Name", "Lvl", "Pay"] = ["EMP ID", "EMP NAME", "GRADE", "TOTAL"]
    ∧ "GRADE" ∈ missing_columns ["ID", "Name", "Lvl", "Pay"]
    ∧ "TOTAL" ∈ missing_columns ["ID", "Name", "Lvl", "Pay"] := by
  have hmatch : ∀ c, col_matches req c = true ↔ col_matches_spec req c := by
    intro c
    simp [col_matches, col_matches_spec]
  refine ⟨?_, ?_, by decide, by decide, by decide⟩
  · rw [find_match, List.find?_isSome]
    constructor
    · rintro ⟨c, hc, hm⟩
      exact ⟨c, hc, (hmatch c).mp hm⟩
    · rintro ⟨c, hc, hm⟩
      exact ⟨c, hc, (hmatch c).mpr hm⟩
  · rw [missing_columns, List.mem_filter]
    simp only [hreq, true_and, Option.isNone_iff_eq_none, find_match, List.find?_eq_none]
    constructor
    · intro h c hc hm
      exact absurd ((hmatch c).mpr hm) (by simpa using h c hc)
    · intro h c hc
      simpa using fun hm => h c hc ((hmatch c).mp hm)

/-- Witness for C7 at the required column GRADE and the actual columns
ID, Name, Lvl, Pay. -/
theorem c7_column_resolution_witness :
    ((find_match ["ID", "Name", "Lvl", "Pay"] "GRADE").isSome = true ↔
      ∃ c ∈ ["ID", "Name", "Lvl", "Pay"], col_matches_spec "GRADE" c)
    ∧ ("GRADE" ∈ missing_columns ["ID", "Name", "Lvl", "Pay"] ↔
      ∀ c ∈ ["ID", "Name", "Lvl", "Pay"], ¬ col_matches_spec "GRADE" c)
    ∧ missing_columns ["ID", "Name", "Lvl", "Pay"] = ["EMP ID", "EMP NAME", "GRADE", "TOTAL"]
    ∧ "GRADE" ∈ missing_columns ["ID", "Name", "Lvl", "Pay"]
    ∧ "TOTAL" ∈ missing_columns ["ID", "Name", "Lvl", "Pay"] :=
  c7_column_resolution ["ID", "Name", "Lvl", "Pay"] "GRADE" (by decide)

/-! ### Claim C8 -/

/-- Claim C8: grade extraction tries the three patterns in their listed
order, stops at the first pattern that matches at least one value of the
column, applies that single pattern to every value, and values the chosen
pattern does not match become missing rather than 0.  The cell
`Grade 7` yields 7 under the first pattern only, and a bare-number cell
like `9` falls through to the third pattern. -/
theorem c8_extraction_precedence (col : List Cell) (p : String → Option String) :
    (try_patterns grade_patterns col =
      if pattern_hits pattern_grade col then some (apply_grade_pattern pattern_grade col)
      else if pattern_hits pattern_g col then some (apply_grade_pattern pattern_g col)
      else if pattern_hits pattern_digits col then some (apply_grade_pattern pattern_digits col)
      else none)
    ∧ (apply_grade_pattern p col =
        col.map (fun c =>
          match p (cell_str c) with
          | some ds =>
            match digit_str_to_nat ds with
            | some n => Cell.num n
            | none => Cell.na
          | none => Cell.na))
    ∧ pattern_grade "Grade 7" = some "7"
    ∧ pattern_g "Grade 7" = none
    ∧ pattern_grade "9" = none
    ∧ pattern_g "9" = none
    ∧ pattern_digits "9" = some "9"
    ∧ try_patterns grade_patterns [Cell.str "Grade 7"] = some [Cell.num 7]
    ∧ try_patterns grade_patterns [Cell.str "9"] = some [Cell.num 9]
    ∧ apply_grade_pattern pattern_grade [Cell.str "Grade 7", Cell.str "x"] =
        [Cell.num 7, Cell.na] :=
  ⟨rfl, rfl, by decide, by decide, by decide, by decide, by decide, by decide, by decide,
   by decide⟩

/-! ### Claim C9 -/

/-- Helper: the row-keeping test holds exactly for positive numeric grades,
so rows with a missing or non-positive grade are the ones dropped. -/
theorem grade_keeps_iff (c : Cell) :
    grade_keeps c = true ↔ ∃ q : ℚ, c = Cell.num q ∧ 0 < q := by
  cases c <;> simp [grade_keeps]

/-- Claim C9: the grade filter keeps exactly the rows whose extracted grade
is a number strictly greater than 0 — rows with a missing or non-positive
grade are dropped — and the all-zero-or-blank upload fails with the
empty-after-filtering error reporting the pre-filter row count of 2. -/
theorem c9_row_filtering (t : Table) (i : ℕ) (r : List Cell)
    (bands : List GradeBand) (old : Option Table) (raw : Table) (gcol : List Cell)
    (hi : col_idx t "GRADE" = some i)
    (hne : raw.rows ≠ [])
    (hmiss : missing_columns raw.cols = [])
    (hok : process_grade_col
        (get_col ⟨rename_cols raw.cols (column_mapping raw.cols), raw.rows⟩ "GRADE") =
      Except.ok gcol)
    (hstr : gcol.any is_str_cell = false)
    (hempty : (filter_rows
        (set_col ⟨rename_cols raw.cols (column_mapping raw.cols), raw.rows⟩ "GRADE"
          gcol)).rows = []) :
    (r ∈ (filter_rows t).rows ↔
      r ∈ t.rows ∧ ∃ q : ℚ, r.getD i Cell.na = Cell.num q ∧ 0 < q)
    ∧ (load_employee_data bands old (some raw)).outcome =
        LoadOutcome.emptyAfterFiltering
          (set_col ⟨rename_cols raw.cols (column_mapping raw.cols), raw.rows⟩ "GRADE"
            gcol).rows.length
    ∧ (load_employee_data grade_data none (some zero_blank_table)).outcome =
        LoadOutcome.emptyAfterFiltering 2 := by
  refine ⟨?_, ?_, by decide⟩
  · simp [filter_rows, hi, List.mem_filter, grade_keeps_iff]
  · have h1 : raw.rows.isEmpty = false := by simp [List.isEmpty_iff, hne]
    have h2 : (filter_rows
        (set_col ⟨rename_cols raw.cols (column_mapping raw.cols), raw.rows⟩ "GRADE"
          gcol)).rows.isEmpty = true := by simp [hempty]
    simp [load_employee_data, h1, hmiss, hok, hstr, h2]

/-- Witness for C9 at the all-zero-or-blank upload and its first row; the
extracted grade column there is 0 and missing, so every row is dropped and
the pre-filter row count of 2 is reported. -/
theorem c9_row_filtering_witness :
    (([Cell.str "E1", Cell.str "A", Cell.num 0, Cell.num 100] ∈
        (filter_rows zero_blank_table).rows ↔
      [Cell.str "E1", Cell.str "A", Cell.num 0, Cell.num 100] ∈ zero_blank_table.rows ∧
        ∃ q : ℚ,
          [Cell.str "E1", Cell.str "A", Cell.num 0, Cell.num 100].getD 2 Cell.na =
            Cell.num q ∧ 0 < q))
    ∧ (load_employee_data grade_data none (some zero_blank_table)).outcome =
        LoadOutcome.emptyAfterFiltering
          (set_col
            ⟨rename_cols zero_blank_table.cols (column_mapping zero_blank_table.cols),
             zero_blank_table.rows⟩ "GRADE" [Cell.num 0, Cell.na]).rows.length
    ∧ (load_employee_data grade_data none (some zero_blank_table)).outcome =
        LoadOutcome.emptyAfterFiltering 2 :=
  c9_row_filtering zero_blank_table 2 [Cell.str "E1", Cell.str "A", Cell.num 0, Cell.num 100]
    grade_data none zero_blank_table [Cell.num 0, Cell.na]
    (by decide) (by decide) (by decide) (by rfl) (by decide) (by decide)

/-! ### Claim C10 -/

/-- Claim C10: the comma/`AED`/space cleanup of the TOTAL column runs only
when the first surviving row's TOTAL value is a string; when the first value
is numeric the column gets only the bare numeric coercion, under which a
text-formatted value such as `1,234` becomes missing, even though the same
value would parse to 1234 after cleaning. -/
theorem c10_total_cleanup_gated_on_first_row (col : List Cell) :
    (∀ q : ℚ, col.head? = some (Cell.num q) → total_coerce col = col.map to_numeric_cell)
    ∧ (∀ s : String, col.head? = some (Cell.str s) →
        total_coerce col =
          ((col.map (fun c => Cell.str (clean_total (cell_str c)))).map to_numeric_cell).map
            to_numeric_cell)
    ∧ to_numeric_cell (Cell.str "1,234") = Cell.na
    ∧ to_numeric_cell (Cell.str (clean_total "1,234")) = Cell.num 1234
    ∧ clean_total "AED 1,234" = "1234"
    ∧ total_coerce [Cell.num 100, Cell.str "1,234"] = [Cell.num 100, Cell.na]
    ∧ total_coerce [Cell.str "1,234", Cell.str "500"] = [Cell.num 1234, Cell.num 500] := by
  refine ⟨?_, ?_, by decide, by decide, by decide, by decide, by decide⟩
  · intro q hq
    simp [total_coerce, hq]
  · intro s hs
    simp [total_coerce, hs]

/-- Witness for C10 at a column whose first TOTAL is numeric and at one
whose first TOTAL is a string. -/
theorem c10_total_cleanup_gated_on_first_row_witness :
    total_coerce [Cell.num 100, Cell.str "1,234"] =
      [Cell.num 100, Cell.str "1,234"].map to_numeric_cell
    ∧ total_coerce [Cell.str "1,234", Cell.str "500"] =
        (([Cell.str "1,234", Cell.str "500"].map
            (fun c => Cell.str (clean_total (cell_str c)))).map to_numeric_cell).map
          to_numeric_cell :=
  ⟨(c10_total_cleanup_gated_on_first_row [Cell.num 100, Cell.str "1,234"]).1 100 rfl,
   (c10_total_cleanup_gated_on_first_row [Cell.str "1,234", Cell.str "500"]).2.1 "1,234" rfl⟩
